import Mathlib

/-!
Verification development for the jsonrpclib message layer
(`src/jsonrpclib/jsonrpc.py`).

The embedding is a shallow one over generic JSON values:

* Python values flowing through the message layer are modelled by `JValue`
  (`None` is `JValue.null`; dicts are insertion-ordered association lists
  with unique keys, looked up by first match).
* JSON numbers are modelled as rationals (`ℚ`).
* Exceptions are modelled by the `Except PyErr` monad; `PyErr` mirrors the
  exception classes the source raises (`TypeError`, `ValueError`,
  `KeyError`, `IndexError`, `NotImplementedError`, and the library's own
  `ProtocolError` / `AppError`, whose payloads are the raised tuples or
  values, with Python tuples modelled as arrays).
* The external JSON text codec (`jdumps` / `jloads`) is excluded from the
  repository; it is modelled at the value level by `JText`: an encoded
  value is a non-empty text denoting exactly that value, and the empty
  text is `JText.empty`.
* The source supports both Python 2 and Python 3 (it branches on
  `sys.version_info`).  Where the two interpreters disagree on a construct
  the source uses (`dict.keys()[0]`, chained comparison against
  non-numeric operands, `raise StopIteration` inside a generator), the
  embedding follows the Python 2 semantics, which is also the evident
  intent of the code; the Python 3 divergences are recorded in comments at
  the relevant definitions.
-/

/-- A generic JSON-safe Python value. `null` models Python `None`; `obj`
models a dict as an insertion-ordered association list with unique keys. -/
inductive JValue where
  | null
  | bool (b : Bool)
  | num (q : ℚ)
  | str (s : String)
  | arr (items : List JValue)
  | obj (entries : List (String × JValue))

/-- Exceptions raised by the message layer, mirroring
`src/jsonrpclib/jsonrpc.py`. `protocolError` / `appError` carry the raised
value (tuples modelled as arrays). -/
inductive PyErr where
  | typeError (msg : String)
  | valueError (msg : String)
  | keyError (key : String)
  | indexError (msg : String)
  | notImplementedError (msg : String)
  | protocolError (payload : JValue)
  | appError (payload : JValue)

/-- Modelled from the spec: the external JSON text codec is excluded from
the repository; a text is either empty or the encoding of exactly one
value. -/
inductive JText where
  | empty
  | ofValue (v : JValue)

/-- First-match lookup in an association list (Python dict access with
unique keys). -/
def jlookupKV : List (String × JValue) → String → Option JValue
  | [], _ => none
  | (k, v) :: rest, key => if k = key then some v else jlookupKV rest key

/-- Dict update `d[key] = v`: replaces the first binding of `key` in place,
appends at the end when absent. -/
def jset : List (String × JValue) → String → JValue → List (String × JValue)
  | [], key, v => [(key, v)]
  | (k, w) :: rest, key, v =>
      if k = key then (k, v) :: rest else (k, w) :: jset rest key v

/-- Dict deletion `del d[key]`. -/
def jerase (entries : List (String × JValue)) (key : String) :
    List (String × JValue) :=
  entries.filter (fun kv => kv.1 ≠ key)

/-- Python truthiness of a JSON-safe value. -/
def pyTruthy : JValue → Bool
  | .null => false
  | .bool b => b
  | .num q => decide (q ≠ 0)
  | .str s => !s.isEmpty
  | .arr items => !items.isEmpty
  | .obj entries => !entries.isEmpty

def JValue.isStr : JValue → Bool
  | .str _ => true
  | _ => false

def JValue.isArr : JValue → Bool
  | .arr _ => true
  | _ => false

def JValue.isObj : JValue → Bool
  | .obj _ => true
  | _ => false

/-- Digits of a decimal literal folded into a natural number. -/
def natOfDigits (cs : List Char) : ℕ :=
  cs.foldl (fun n c => n * 10 + (c.toNat - 48)) 0

/-- Modelled from the spec: the Python builtin `float()` on a decimal
string literal (optional sign, digits, optional fractional part, optional
surrounding spaces). Exponent and special forms are not needed by the
protocol-version strings this layer handles. Returns `none` when the
string is not such a literal (Python raises `ValueError`). -/
def parsePyFloatCore (cs : List Char) : Option (ℕ × ℕ) :=
  let intPart := cs.takeWhile Char.isDigit
  let rest := cs.dropWhile Char.isDigit
  match rest with
  | [] => if intPart.isEmpty then none else some (natOfDigits intPart, 0)
  | c :: frac =>
      if c = ('.') ∧ frac.all Char.isDigit ∧ ¬(intPart.isEmpty ∧ frac.isEmpty)
      then some (natOfDigits (intPart ++ frac), frac.length)
      else none

def parsePyFloat (s : String) : Option ℚ :=
  let cs := ((s.data.dropWhile (· = ' ')).reverse.dropWhile (· = ' ')).reverse
  let toRat : ℕ × ℕ → ℚ := fun p => mkRat (p.1 : ℤ) (10 ^ p.2)
  match cs with
  | c :: rest =>
      if c = ('-') then (parsePyFloatCore rest).map (fun p => -(toRat p))
      else if c = ('+') then (parsePyFloatCore rest).map toRat
      else (parsePyFloatCore cs).map toRat
  | [] => none

/-- `float(v)` on a JSON-safe value: numbers pass through, booleans become
0/1, strings are parsed, everything else is a `TypeError`. -/
def pyFloat : JValue → Except PyErr ℚ
  | .num q => .ok q
  | .bool b => .ok (if b then 1 else 0)
  | .str s =>
      match parsePyFloat s with
      | some q => .ok q
      | none => .error (.valueError ("could not convert string to float: " ++ s))
  | _ => .error (.typeError "float() argument must be a string or a number")

/-- Modelled from the spec: Python `str()` applied to the protocol-version
float, used for the `jsonrpc` field. Exact on the supported versions
(1.0, 1.1, 2.0) and on every integral version; other rationals cannot
arise from supported configurations. -/
def pyFloatStr (q : ℚ) : String :=
  if q = mkRat 11 10 then "1.1"
  else if q.den = 1 then toString q.num ++ ".0"
  else toString q.num ++ "/" ++ toString q.den

/-- Python membership `needle in container` for a string needle:
key membership for dicts, substring for strings, element membership for
lists, `TypeError` otherwise. -/
def pyContains (container : JValue) (needle : String) : Except PyErr Bool :=
  match container with
  | .obj entries => .ok (jlookupKV entries needle).isSome
  | .str s => .ok (needle.isEmpty || (s.splitOn needle).length > 1)
  | .arr items =>
      .ok (items.any (fun x => match x with
        | .str t => t = needle
        | _ => false))
  | _ => .error (.typeError "argument of type is not iterable")

/-- Python subscripting `container[key]` with a string key. -/
def pySubscriptStr (container : JValue) (key : String) : Except PyErr JValue :=
  match container with
  | .obj entries =>
      match jlookupKV entries key with
      | some v => .ok v
      | none => .error (.keyError key)
  | .str _ => .error (.typeError "string indices must be integers")
  | .arr _ => .error (.typeError "list indices must be integers")
  | _ => .error (.typeError "object is not subscriptable")

/-- Python `d.get(key, default)`; only dicts expose `.get`. -/
def pyDictGet (container : JValue) (key : String) (dflt : JValue) :
    Except PyErr JValue :=
  match container with
  | .obj entries => .ok ((jlookupKV entries key).getD dflt)
  | _ => .error (.typeError "object has no attribute get")

/-- The chained comparison `-32700 <= code <= -32000` at source line 731.
Python 2 orders `None` below every number and all other non-numeric values
above every number, so the chain holds exactly for numbers inside the
closed range (booleans count as 0/1, outside it). Under Python 3 a
non-numeric `code` would instead raise `TypeError` here. -/
def py2ReservedRange : JValue → Bool
  | .num q => decide ((-32700 : ℚ) ≤ q) && decide (q ≤ (-32000 : ℚ))
  | _ => false

/-- Source lines 710-712: `'jsonrpc' in result and float(result['jsonrpc'])
> 2.0`; a declared version above 2.0 is an unsupported-version error, and
errors of the `float` conversion itself propagate. -/
def check_version (entries : List (String × JValue)) : Except PyErr Unit :=
  match jlookupKV entries "jsonrpc" with
  | some jv =>
      Except.bind (pyFloat jv) (fun ver =>
        if 2 < ver then
          .error (.notImplementedError "JSON-RPC version not yet supported.")
        else .ok ())
  | none => .ok ()

/-- Source lines 723-729: `try: message = error['message'] except
KeyError: message = error.get('trace', '<no error message>')`. -/
def message_of_error (err : JValue) : Except PyErr JValue :=
  match pySubscriptStr err "message" with
  | .ok m => .ok m
  | .error (.keyError _) => pyDictGet err "trace" (.str "<no error message>")
  | .error e => .error e

/-- Source lines 718-750: classification of a truthy `error` member; every
path raises. The single-entry fallback translates
`result['error'].keys()[0]` as the dict's only key, which is the Python 2
behaviour and the evident intent (under Python 3 `dict.keys()` is a view
and subscripting it raises `TypeError`). -/
def classify_error (err : JValue) : Except PyErr JValue :=
  Except.bind (pyContains err "code") (fun hasCode =>
    if hasCode then
      Except.bind (pySubscriptStr err "code") (fun code =>
        Except.bind (message_of_error err) (fun message =>
          if py2ReservedRange code then
            .error (.protocolError (.arr [code, message]))
          else
            Except.bind (pyDictGet err "data" .null) (fun dataVal =>
              .error (.appError (.arr [code, message, dataVal])))))
    else
      match err with
      | .obj [(_, v)] => .error (.protocolError v)
      | _ => .error (.protocolError err))

/-- `check_for_errors` (source lines 691-752): the error classifier.
Falsy inputs (no response expected) pass through unchanged; non-dicts are
a `TypeError`; a declared version above 2.0 is a `NotImplementedError`;
a dict with neither `result` nor `error` is a `ValueError`; a truthy
`error` member is classified by `classify_error`; otherwise the input is
returned unchanged. -/
def check_for_errors (result : JValue) : Except PyErr JValue :=
  if !pyTruthy result then
    .ok result
  else
    match result with
    | .obj entries =>
        Except.bind (check_version entries) (fun _ =>
          if (jlookupKV entries "result").isNone
              && (jlookupKV entries "error").isNone then
            .error (.valueError "Response does not have a result or error key.")
          else
            match jlookupKV entries "error" with
            | some err => if pyTruthy err then classify_error err else .ok result
            | none => .ok result)
    | _ => .error (.typeError "Response is not a dict.")

/-- `isbatch` (source lines 755-770): recognizes a batch response. Only a
`ValueError` of the `float` conversion is caught and re-raised as
`ProtocolError`; other conversion errors propagate. -/
def isbatch (result : JValue) : Except PyErr Bool :=
  match result with
  | .arr [] => .ok false
  | .arr (first :: _) =>
      match first with
      | .obj fkvs =>
          match jlookupKV fkvs "jsonrpc" with
          | none => .ok false
          | some jv =>
              match pyFloat jv with
              | .ok ver => if ver < 2 then .ok false else .ok true
              | .error (.valueError _) =>
                  .error (.protocolError
                    (.str "\"jsonrpc\" key must be a float(able) value."))
              | .error e => .error e
      | _ => .ok false
  | _ => .ok false

/-- Modelled from the spec: the process-wide default protocol version of
the absent `config` module (`config.version`), 2.0. -/
def config_version : ℚ := 2

/-- `if not version: version = config.version` on a float-or-None version
argument. -/
def resolve_version : Option ℚ → ℚ
  | none => config_version
  | some v => if v = 0 then config_version else v

/-- Modelled from the spec: the external object marshaller
(`jsonclass.dump`), which maps typed application objects to JSON-safe
values; on the generic JSON-safe values of this embedding it is the
identity. -/
def jsonclass_dump (v : JValue) : JValue := v

/-- Modelled from the spec: the external object marshaller
(`jsonclass.load`); identity on generic JSON-safe values. -/
def jsonclass_load (v : JValue) : JValue := v

/-- The state of a `Payload` content handler: the request id and the
(already float-converted) protocol version. -/
structure PayloadState where
  id : JValue
  version : ℚ

/-- `Payload.request` (source lines 487-509). The envelope dict is the
returned association list; `fresh` models the generated
`str(uuid.uuid4())` used when the current id is falsy. -/
def payload_request (st : PayloadState) (method : JValue) (params : JValue)
    (fresh : String) : Except PyErr (PayloadState × List (String × JValue)) :=
  match method with
  | .str _ =>
      let newId := if pyTruthy st.id then st.id else .str fresh
      let st' : PayloadState := { st with id := newId }
      let base := [("id", newId), ("method", method)]
      let withParams :=
        if pyTruthy params || decide (st.version < mkRat 11 10) then
          base ++ [("params", params)]
        else base
      let withVersion :=
        if decide (2 ≤ st.version) then
          withParams ++ [("jsonrpc", JValue.str (pyFloatStr st.version))]
        else withParams
      .ok (st', withVersion)
  | _ => .error (.valueError "Method name must be a string.")

/-- `Payload.notify` (source lines 512-529): builds a request, then strips
the `id` key (version >= 2) or nulls it (version < 2). -/
def payload_notify (st : PayloadState) (method : JValue) (params : JValue)
    (fresh : String) : Except PyErr (PayloadState × List (String × JValue)) :=
  Except.bind (payload_request st method params fresh) (fun sr =>
    if decide (2 ≤ sr.1.version) then
      .ok (sr.1, jerase sr.2 "id")
    else
      .ok (sr.1, jset sr.2 "id" .null))

/-- `Payload.response` (source lines 532-546). -/
def payload_response (st : PayloadState) (result : JValue) :
    List (String × JValue) :=
  let base := [("result", result), ("id", st.id)]
  if decide (2 ≤ st.version) then
    base ++ [("jsonrpc", JValue.str (pyFloatStr st.version))]
  else base ++ [("error", JValue.null)]

/-- `Payload.error` (source lines 549-563). -/
def payload_error (st : PayloadState) (code : JValue) (message : JValue) :
    List (String × JValue) :=
  let e := payload_response st .null
  let e := if decide (2 ≤ st.version) then jerase e "result"
           else jset e "result" .null
  jset e "error" (.obj [("code", code), ("message", message)])

/-- The local `Fault` object (source lines 404-466), as far as `dump`
consumes it. -/
structure Fault where
  faultCode : JValue
  faultString : JValue

/-- The `params` argument of `dump`: either a JSON-safe value or a `Fault`
instance. -/
inductive DumpParams where
  | value (v : JValue)
  | fault (f : Fault)

/-- `methodname in utils.StringTypes` at source line 586 tests membership
of the value itself in the tuple of type objects `(str, ...)`; a JSON
value never equals a type object, so the test is always false and the
params-type `TypeError` at lines 586-592 is unreachable. -/
def methodname_in_StringTypes (_ : JValue) : Bool := false

def isValidParams : DumpParams → Bool
  | .fault _ => true
  | .value v => v.isArr || v.isObj

/-- `dump` (source lines 567-623): the orchestrator building a request,
notification, response or error dict. -/
def dump (params : DumpParams) (methodname : JValue) (rpcid : JValue)
    (version : Option ℚ) (is_response : Bool) (is_notify : Bool)
    (fresh : String) : Except PyErr (List (String × JValue)) :=
  let ver := resolve_version version
  if methodname_in_StringTypes methodname && !isValidParams params then
    .error (.typeError "Params must be a dict, list, tuple or Fault instance.")
  else
    let payload : PayloadState := { id := rpcid, version := ver }
    match params with
    | .fault f => .ok (payload_error payload f.faultCode f.faultString)
    | .value pv =>
        if !methodname.isStr && !is_response then
          .error (.valueError
            "Method name must be a string, or is_response must be set to True.")
        else
          let pv := jsonclass_dump pv
          if is_response then
            match rpcid with
            | .null => .error (.valueError "A method response must have an rpcid.")
            | _ => .ok (payload_response payload pv)
          else if is_notify then
            (payload_notify payload methodname pv fresh).map (·.2)
          else
            (payload_request payload methodname pv fresh).map (·.2)

/-- `dumps` (source lines 626-648): `dump` followed by the external JSON
text encoder (`jdumps`), modelled at the value level: encoding a dict
yields a non-empty text denoting exactly that dict. The `encoding`
argument only affects the byte encoding and is immaterial here. -/
def dumps (params : DumpParams) (methodname : JValue) (rpcid : JValue)
    (version : Option ℚ) (methodresponse : Bool) (notify : Bool)
    (fresh : String) : Except PyErr JText :=
  (dump params methodname rpcid version methodresponse notify fresh).map
    (fun d => JText.ofValue (.obj d))

/-- `loads` (source lines 672-687) composed with `load` (651-669): the
empty text means no response (Python `None`, i.e. `null`); otherwise the
external decoder yields the denoted value, passed through the marshaller. -/
def loads (data : JText) : JValue :=
  match data with
  | .empty => .null
  | .ofValue v => jsonclass_load v

/-- A pending batch job (`MultiCallMethod`, source lines 313-339): the
accumulated dotted method name, the captured argument set, and the notify
flag. -/
structure MCJob where
  method : JValue
  params : JValue
  notify : Bool

/-- `MultiCallMethod.request` (source lines 329-331): serialize one job at
version 2.0 with no forced id. -/
def mcjob_request (job : MCJob) (fresh : String) :
    Except PyErr (List (String × JValue)) :=
  dump (.value job.params) job.method .null (some 2) false job.notify fresh

/-- `ServerProxy._run_request` (source lines 246-269) at the value level:
one transport exchange; an empty response text means `None`, otherwise the
decoded value. The optional history recorder is immaterial here. -/
def run_request (transport : JText → JText) (req : JText) : JValue :=
  match transport req with
  | .empty => .null
  | .ofValue v => jsonclass_load v

/-- `MultiCall._request` (source lines 375-385). Returns the value wrapped
by the result view (`null` when the engine returns early), the number of
transport exchanges performed, and the job list after the call (the source
clears it in place after sending). -/
def multicall_request (transport : JText → JText) (freshIds : ℕ → String)
    (jobs : List MCJob) : Except PyErr (JValue × ℕ × List MCJob) :=
  if jobs.length < 1 then .ok (.null, 0, jobs)
  else do
    let envs ← jobs.enum.mapM
      (fun p => (mcjob_request p.2 (freshIds p.1)).map JValue.obj)
    let responses := run_request transport (JText.ofValue (.arr envs))
    let responses := if pyTruthy responses then responses else .arr []
    return (responses, 1, [])

/-- `MultiCallIterator.__getitem__` (source lines 361-364) over a response
sequence: fetch element `i`, classify it, and unwrap its `result`. -/
def multicall_getitem (results : List JValue) (i : ℕ) : Except PyErr JValue :=
  match results.get? i with
  | none => .error (.indexError "list index out of range")
  | some item => do
      let _ ← check_for_errors item
      pySubscriptStr item "result"

/-- The loop of `MultiCallIterator.__iter__` (source lines 356-359):
`for i in range(0, len(results)): yield self[i]`, yielding the first `n`
classified elements in positional order. The trailing
`raise StopIteration` ends the generator normally under Python 2 (the
code's intent); under Python >= 3.7, PEP 479 turns it into a
`RuntimeError` after the last element. -/
def multicall_iter_go (results : List JValue) : ℕ → Except PyErr (List JValue)
  | 0 => .ok []
  | n + 1 => do
      let init ← multicall_iter_go results n
      let last ← multicall_getitem results n
      return init ++ [last]

/-- Full iteration of a `MultiCallIterator` over a response sequence,
under the Python 2 (intended) semantics of its generator. -/
def multicall_iterate (results : List JValue) : Except PyErr (List JValue) :=
  multicall_iter_go results results.length

/-- `_Method.__call__` (source lines 284-291): the bound single-call
proxy. `send` models `self.__send` (which builds the envelope and performs
the transport exchange); the returned number counts how many times it ran. -/
def method_call (send : String → JValue → Except PyErr JValue) (name : String)
    (args : List JValue) (kwargs : List (String × JValue)) :
    Except PyErr JValue × ℕ :=
  if 0 < args.length ∧ 0 < kwargs.length then
    (.error (.protocolError (.str
      "Cannot use both positional and keyword arguments (according to JSON-RPC spec.)")), 0)
  else if 0 < args.length then (send name (.arr args), 1)
  else (send name (.obj kwargs), 1)

/-- `MultiCallMethod.__call__` (source lines 320-327): capture the
argument set of a batch job. The envelope is only built later by
`mcjob_request`, so a failure here precedes any envelope construction. -/
def multicallmethod_call (job : MCJob) (args : List JValue)
    (kwargs : List (String × JValue)) : Except PyErr MCJob :=
  if 0 < kwargs.length ∧ 0 < args.length then
    .error (.protocolError (.str
      "JSON-RPC does not support both positional and keyword arguments."))
  else if 0 < kwargs.length then .ok { job with params := .obj kwargs }
  else .ok { job with params := .arr args }

/-- The spec's words for C2: `error.message` if present, else `error.trace`
if present, else a placeholder string. -/
def errMessage (ekvs : List (String × JValue)) : JValue :=
  match jlookupKV ekvs "message" with
  | some m => m
  | none => (jlookupKV ekvs "trace").getD (.str "<no error message>")

/-- The spec's words for C2: the optional `error.data` value. -/
def errData (ekvs : List (String × JValue)) : JValue :=
  (jlookupKV ekvs "data").getD .null

/-- The response dict carries no `jsonrpc` member parsing above 2.0 (so the
classifier's version gate at source line 710 does not fire). -/
def jsonrpcOk (entries : List (String × JValue)) : Bool :=
  match jlookupKV entries "jsonrpc" with
  | none => true
  | some jv =>
      match pyFloat jv with
      | .ok q => decide (q ≤ 2)
      | .error _ => false

/-- The claim's words for C9 (positive side): a non-empty sequence whose
first element is a mapping containing a `jsonrpc` key parseable as a
number at least 2.0. -/
def isBatchSpec (v : JValue) : Bool :=
  match v with
  | .arr (first :: _) =>
      match first with
      | .obj fkvs =>
          match jlookupKV fkvs "jsonrpc" with
          | some jv =>
              match pyFloat jv with
              | .ok ver => decide (2 ≤ ver)
              | .error _ => false
          | none => false
      | _ => false
  | _ => false

/-- The claim's words for C9 (rejection side): empty sequences,
non-sequence values, non-mapping first elements, and first elements whose
version parses below 2. -/
def isBatchReject (v : JValue) : Bool :=
  match v with
  | .arr [] => true
  | .arr (first :: _) =>
      match first with
      | .obj fkvs =>
          match jlookupKV fkvs "jsonrpc" with
          | some jv =>
              match pyFloat jv with
              | .ok ver => decide (ver < 2)
              | .error _ => false
          | none => false
      | _ => true
  | _ => true

theorem jlookupKV_jerase_self (entries : List (String × JValue))
    (key : String) : jlookupKV (jerase entries key) key = none := by
  induction entries with
  | nil => rfl
  | cons kv rest ih =>
      obtain ⟨k, w⟩ := kv
      by_cases h : k = key
      · simpa [jerase, h] using ih
      · simpa [jerase, h, jlookupKV] using ih

theorem jlookupKV_jset_self (entries : List (String × JValue)) (key : String)
    (v : JValue) : jlookupKV (jset entries key v) key = some v := by
  induction entries with
  | nil => simp [jset, jlookupKV]
  | cons kv rest ih =>
      obtain ⟨k, w⟩ := kv
      by_cases h : k = key
      · simp [jset, h, jlookupKV]
      · simp [jset, h, jlookupKV, ih]

theorem check_version_ok (entries : List (String × JValue))
    (h : jsonrpcOk entries = true) : check_version entries = .ok () := by
  unfold check_version
  unfold jsonrpcOk at h
  cases hj : jlookupKV entries "jsonrpc" with
  | none => rfl
  | some jv =>
      simp only [hj] at h
      cases hf : pyFloat jv with
      | ok q =>
          simp only [hf, decide_eq_true_eq] at h
          simp [hf, Except.bind, not_lt.mpr h]
      | error e =>
          simp only [hf] at h
          exact absurd h (by simp)

theorem message_of_error_obj (ekvs : List (String × JValue)) :
    message_of_error (.obj ekvs) = .ok (errMessage ekvs) := by
  unfold message_of_error errMessage pySubscriptStr pyDictGet
  cases hm : jlookupKV ekvs "message" <;> simp [hm]

/-- C3 (amended): invoking the batch engine with an empty pending job list
performs zero transport exchanges and returns `None` — no result view at
all — leaving the job list untouched. -/
theorem multicall_empty_no_exchange (transport : JText → JText)
    (freshIds : ℕ → String) :
    multicall_request transport freshIds [] = .ok (.null, 0, []) := rfl

/-- C3 (counterexample): on an empty job list the engine performs zero
exchanges but returns `None` (`null`), which is not a result view of
length zero (`null` is not the empty sequence), contrary to the claim. -/
theorem multicall_empty_yields_none :
    multicall_request (fun _ => JText.empty) (fun _ => "") []
      = .ok (.null, 0, []) ∧ JValue.null ≠ JValue.arr [] :=
  ⟨rfl, by simp⟩

/-- C4: iterating the batch result view over a two-element response
sequence yields the two classified, unwrapped results in positional order
and terminates normally — under the Python 2 semantics of the generator in
`MultiCallIterator.__iter__`, which is the code's intent. Under
Python >= 3.7 the trailing `raise StopIteration` is converted to a
`RuntimeError` by PEP 479, so exhausting the iterator raises at the end of
the sequence instead; that is the code bug recorded for this claim. -/
theorem multicall_iterate_pair :
    multicall_iterate
      [.obj [("result", .num 53), ("id", .str "1"), ("jsonrpc", .str "2.0")],
       .obj [("result", .num 5), ("id", .str "2"), ("jsonrpc", .str "2.0")]]
      = .ok [.num 53, .num 5] := rfl

/-- C6: a truthy `error` mapping with no `code` field and exactly one
entry is classified as a protocol-level failure carrying that entry's
value — per the Python 2 reading of `result['error'].keys()[0]`, the
code's evident intent. Under Python 3 that line raises `TypeError`
(`dict_keys` is not subscriptable) instead; that is the code bug recorded
for this claim. -/
theorem single_entry_error_fallback :
    check_for_errors (.obj [("error", .obj [("reason", .str "failure")]),
                            ("id", .num 1)])
      = .error (.protocolError (.str "failure")) := rfl

/-- C8: supplying both positional and keyword arguments to a bound method
proxy — single-call (`_Method.__call__`) or batch job
(`MultiCallMethod.__call__`) — raises `ProtocolError` immediately: the
single-call path performs zero `send` invocations (so no envelope build
and no transport exchange), and the batch path leaves the job unchanged
and reaches no serialization. -/
theorem mixed_args_rejected (send : String → JValue → Except PyErr JValue)
    (name : String) (args : List JValue) (kwargs : List (String × JValue))
    (job : MCJob) (ha : args ≠ []) (hk : kwargs ≠ []) :
    method_call send name args kwargs
      = (.error (.protocolError (.str
          "Cannot use both positional and keyword arguments (according to JSON-RPC spec.)")), 0)
  ∧ multicallmethod_call job args kwargs
      = .error (.protocolError (.str
          "JSON-RPC does not support both positional and keyword arguments.")) := by
  have ha' : 0 < args.length := List.length_pos.mpr ha
  have hk' : 0 < kwargs.length := List.length_pos.mpr hk
  exact ⟨by simp [method_call, ha', hk'], by simp [multicallmethod_call, ha', hk']⟩

/-- C8 (witness): one positional and one keyword argument. -/
theorem mixed_args_rejected_example :
    method_call (fun _ _ => .ok .null) "add" [.num 1] [("a", .num 2)]
      = (.error (.protocolError (.str
          "Cannot use both positional and keyword arguments (according to JSON-RPC spec.)")), 0)
  ∧ multicallmethod_call ⟨.str "add", .arr [], false⟩ [.num 1] [("a", .num 2)]
      = .error (.protocolError (.str
          "JSON-RPC does not support both positional and keyword arguments.")) :=
  mixed_args_rejected (fun _ _ => .ok .null) "add" [.num 1] [("a", .num 2)]
    ⟨.str "add", .arr [], false⟩ (by simp) (by simp)

/-- C10: whenever the supplied request id is falsy (absent/None, zero, or
the empty string), `Payload.request` discards it and sets the envelope's
`id` to the freshly generated UUID string; a falsy caller-supplied id is
never preserved. -/
theorem falsy_id_regenerated (rpcid : JValue) (v : ℚ) (m : String)
    (params : JValue) (fresh : String) (h : pyTruthy rpcid = false) :
    (payload_request ⟨rpcid, v⟩ (.str m) params fresh).map
      (fun r => jlookupKV r.2 "id") = .ok (some (.str fresh)) := by
  simp [payload_request, h, Except.map]
  split_ifs <;> simp [jlookupKV]

/-- C10 (witness): a caller-supplied id of `0` is replaced by the
generated UUID string. -/
theorem falsy_id_regenerated_example :
    (payload_request ⟨.num 0, 2⟩ (.str "add") (.arr [.num 1]) "uuid-1").map
      (fun r => jlookupKV r.2 "id") = .ok (some (.str "uuid-1")) :=
  falsy_id_regenerated (.num 0) 2 "add" (.arr [.num 1]) "uuid-1" (by rfl)

/-- C7: a notification envelope built at any version >= 2 contains no `id`
key at all, while one built at any version < 2 contains the key `id` with
value null. -/
theorem notify_id_by_version (rpcid : JValue) (v : ℚ) (m : String)
    (params : JValue) (fresh : String) :
    (2 ≤ v →
      (payload_notify ⟨rpcid, v⟩ (.str m) params fresh).map
        (fun r => jlookupKV r.2 "id") = .ok none)
  ∧ (v < 2 →
      (payload_notify ⟨rpcid, v⟩ (.str m) params fresh).map
        (fun r => jlookupKV r.2 "id") = .ok (some .null)) := by
  constructor
  · intro hv
    simp only [payload_notify, payload_request, Except.bind, Except.map, hv,
      decide_eq_true_eq, if_pos]
    simp [jlookupKV_jerase_self]
  · intro hv
    have hv' : ¬ (2 : ℚ) ≤ v := not_le.mpr hv
    simp [payload_notify, payload_request, Except.bind, Except.map, hv',
      jlookupKV_jset_self]

/-- C7 (witness): version 2.0 omits `id`; version 1.0 sets `id: null`. -/
theorem notify_id_by_version_example :
    (payload_notify ⟨.null, 2⟩ (.str "ping") (.arr []) "u").map
      (fun r => jlookupKV r.2 "id") = .ok none
  ∧ (payload_notify ⟨.null, 1⟩ (.str "ping") (.arr []) "u").map
      (fun r => jlookupKV r.2 "id") = .ok (some .null) :=
  ⟨(notify_id_by_version .null 2 "ping" (.arr []) "u").1 (by norm_num),
   (notify_id_by_version .null 1 "ping" (.arr []) "u").2 (by norm_num)⟩

/-- C9: the batch-response recognizer returns `true` exactly on the values
the claim describes (`isBatchSpec`), and returns `false` — rather than
raising — on each of the claim's rejection categories (`isBatchReject`):
empty sequences, non-sequence values, non-mapping first elements, and
first elements whose version parses below 2. (On a first element whose
`jsonrpc` value fails to parse, the recognizer raises instead; the claim
does not class that case as a `false` return, and indeed it is not.) -/
theorem isbatch_spec (v : JValue) :
    (isbatch v = .ok true ↔ isBatchSpec v = true)
  ∧ (isBatchReject v = true → isbatch v = .ok false) := by
  cases v with
  | arr items =>
      cases items with
      | nil => simp [isbatch, isBatchSpec, isBatchReject]
      | cons first rest =>
          cases first with
          | obj fkvs =>
              cases hj : jlookupKV fkvs "jsonrpc" with
              | none => simp [isbatch, isBatchSpec, isBatchReject, hj]
              | some jv =>
                  cases hf : pyFloat jv with
                  | ok q =>
                      rcases lt_or_le q 2 with h | h
                      · simp [isbatch, isBatchSpec, isBatchReject, hj, hf, h,
                          not_le.mpr h]
                      · simp [isbatch, isBatchSpec, isBatchReject, hj, hf, h,
                          not_lt.mpr h]
                  | error e =>
                      cases e <;>
                        simp [isbatch, isBatchSpec, isBatchReject, hj, hf]
          | null => simp [isbatch, isBatchSpec, isBatchReject]
          | bool b => simp [isbatch, isBatchSpec, isBatchReject]
          | num q => simp [isbatch, isBatchSpec, isBatchReject]
          | str s => simp [isbatch, isBatchSpec, isBatchReject]
          | arr a => simp [isbatch, isBatchSpec, isBatchReject]
  | null => simp [isbatch, isBatchSpec, isBatchReject]
  | bool b => simp [isbatch, isBatchSpec, isBatchReject]
  | num q => simp [isbatch, isBatchSpec, isBatchReject]
  | str s => simp [isbatch, isBatchSpec, isBatchReject]
  | obj o => simp [isbatch, isBatchSpec, isBatchReject]

/-- C9 (witness): the empty sequence is in the rejection class and the
recognizer returns `false` on it. -/
theorem isbatch_spec_example : isbatch (.arr []) = .ok false :=
  (isbatch_spec (.arr [])).2 (by rfl)

theorem check_invalid_envelope_aux (kvs : List (String × JValue))
    (h0 : kvs.isEmpty = false) (hver : jsonrpcOk kvs = true)
    (hr : jlookupKV kvs "result" = none) (he : jlookupKV kvs "error" = none) :
    check_for_errors (.obj kvs)
      = .error (.valueError "Response does not have a result or error key.") := by
  have hcv := check_version_ok kvs hver
  simp [check_for_errors, pyTruthy, h0, hcv, Except.bind, hr, he]

/-- C5 (amended): a decoded response that is a non-empty mapping, whose
`jsonrpc` field (if present) parses as a number at most 2.0, and which
contains neither a `result` nor an `error` key, is rejected by the
classifier with the invalid-envelope `ValueError`. (The empty mapping is
falsy and passes through unchanged instead — see the counterexample.) -/
theorem no_result_no_error_rejected (kvs : List (String × JValue))
    (h0 : kvs.isEmpty = false) (hver : jsonrpcOk kvs = true)
    (hr : jlookupKV kvs "result" = none) (he : jlookupKV kvs "error" = none) :
    check_for_errors (.obj kvs)
      = .error (.valueError "Response does not have a result or error key.") :=
  check_invalid_envelope_aux kvs h0 hver hr he

/-- C5 (witness): a non-empty mapping with neither key is rejected. -/
theorem no_result_no_error_rejected_example :
    check_for_errors (.obj [("id", .num 1)])
      = .error (.valueError "Response does not have a result or error key.") :=
  no_result_no_error_rejected [("id", .num 1)] (by rfl) (by rfl) (by rfl) (by rfl)

/-- C5 (counterexample): the empty mapping contains neither `result` nor
`error`, yet the classifier returns it unchanged (it is falsy, so the
notification pass-through at source line 702 fires first) instead of
raising the invalid-envelope error. -/
theorem empty_mapping_passes_through :
    check_for_errors (.obj []) = .ok (.obj [])
  ∧ check_for_errors (.obj [])
      ≠ .error (.valueError "Response does not have a result or error key.") :=
  ⟨rfl, by simp [show check_for_errors (.obj []) = .ok (.obj []) from rfl]⟩

/-- C2 (amended): for a decoded response mapping whose `jsonrpc` field (if
present) parses as a number at most 2.0, carrying an `error` mapping with a
numeric `code` field: a code inside the reserved range
[-32700, -32000] raises `ProtocolError (code, message)` and any other code
raises `AppError (code, message, data)`, where `message` is
`error.message` if present, else `error.trace` if present, else the
placeholder, and `data` is the optional `error.data` value (null when
absent). (A response whose `jsonrpc` parses above 2.0 raises the
unsupported-version error before the error member is inspected, and a
non-numeric code's range test is interpreter-dependent — Python 2 sends it
to the application branch, Python 3 raises `TypeError` — so the claim is
stated for numeric codes.) -/
theorem error_code_classification (kvs ekvs : List (String × JValue)) (q : ℚ)
    (herr : jlookupKV kvs "error" = some (.obj ekvs))
    (hcode : jlookupKV ekvs "code" = some (.num q))
    (hver : jsonrpcOk kvs = true) :
    check_for_errors (.obj kvs)
      = .error (if (-32700 : ℚ) ≤ q ∧ q ≤ (-32000 : ℚ)
          then .protocolError (.arr [.num q, errMessage ekvs])
          else .appError (.arr [.num q, errMessage ekvs, errData ekvs])) := by
  have hcv := check_version_ok kvs hver
  have h0 : kvs.isEmpty = false := by
    cases kvs with
    | nil => simp [jlookupKV] at herr
    | cons kv rest => rfl
  have h1 : ekvs.isEmpty = false := by
    cases ekvs with
    | nil => simp [jlookupKV] at hcode
    | cons kv rest => rfl
  simp only [check_for_errors, pyTruthy, h0, Bool.not_false, Bool.not_true,
    hcv, Except.bind, herr, Option.isSome_some, Bool.and_false, h1]
  simp [pyTruthy, h1, classify_error, pyContains, hcode, Except.bind,
    pySubscriptStr, message_of_error_obj, pyDictGet, py2ReservedRange,
    errData]
  split_ifs <;> rfl

/-- C2 (witness): a reserved-range code `-32600` yields the protocol-level
failure branch. -/
theorem error_code_classification_example :
    check_for_errors (.obj [("error", .obj [("code", .num (-32600)),
        ("message", .str "boom")]), ("id", .num 1)])
      = .error (if (-32700 : ℚ) ≤ (-32600 : ℚ) ∧ (-32600 : ℚ) ≤ (-32000 : ℚ)
          then .protocolError (.arr [.num (-32600),
            errMessage [("code", .num (-32600)), ("message", .str "boom")]])
          else .appError (.arr [.num (-32600),
            errMessage [("code", .num (-32600)), ("message", .str "boom")],
            errData [("code", .num (-32600)), ("message", .str "boom")]])) :=
  error_code_classification
    [("error", .obj [("code", .num (-32600)), ("message", .str "boom")]),
     ("id", .num 1)]
    [("code", .num (-32600)), ("message", .str "boom")]
    (-32600) (by rfl) (by rfl) (by rfl)

/-- C2 (counterexample): a response that is a mapping with a truthy
`error` mapping carrying `code = -32600`, but declaring `jsonrpc: "3.0"`,
raises the unsupported-version `NotImplementedError` — not the
protocol-level failure carrying `(code, message)` the claim requires for a
reserved-range code. -/
theorem version_gate_preempts_error :
    check_for_errors (.obj [("jsonrpc", .str "3.0"),
        ("error", .obj [("code", .num (-32600)), ("message", .str "boom")])])
      = .error (.notImplementedError "JSON-RPC version not yet supported.")
  ∧ check_for_errors (.obj [("jsonrpc", .str "3.0"),
        ("error", .obj [("code", .num (-32600)), ("message", .str "boom")])])
      ≠ .error (.protocolError (.arr [.num (-32600), .str "boom"])) :=
  ⟨rfl, by
    simp [show check_for_errors (.obj [("jsonrpc", .str "3.0"),
        ("error", .obj [("code", .num (-32600)), ("message", .str "boom")])])
      = .error (.notImplementedError "JSON-RPC version not yet supported.")
      from rfl]⟩

/-- C1 (amended): for a string method, truthy sequence-or-mapping params
and a truthy id, decode after encode recovers the built request envelope
exactly — method, params and id included — but the error classifier then
rejects that envelope with the invalid-envelope `ValueError`, because a
request carries neither a `result` nor an `error` key; so the claimed
pipeline cannot end in the classifier succeeding. -/
theorem request_roundtrip_decode (m : String) (params rpcid : JValue)
    (fresh : String) (hid : pyTruthy rpcid = true)
    (hp : pyTruthy params = true)
    (_hshape : (params.isArr || params.isObj) = true) :
    dumps (.value params) (.str m) rpcid (some 2) false false fresh
      = .ok (.ofValue (.obj [("id", rpcid), ("method", .str m),
          ("params", params), ("jsonrpc", .str "2.0")]))
  ∧ loads (.ofValue (.obj [("id", rpcid), ("method", .str m),
          ("params", params), ("jsonrpc", .str "2.0")]))
      = .obj [("id", rpcid), ("method", .str m), ("params", params),
          ("jsonrpc", .str "2.0")]
  ∧ check_for_errors (.obj [("id", rpcid), ("method", .str m),
          ("params", params), ("jsonrpc", .str "2.0")])
      = .error (.valueError "Response does not have a result or error key.") := by
  have e1 : resolve_version (some 2) = 2 := rfl
  have e2 : decide ((2 : ℚ) ≤ 2) = true := rfl
  have e3 : decide ((2 : ℚ) < mkRat 11 10) = false := rfl
  have e4 : pyFloatStr 2 = "2.0" := rfl
  refine ⟨?_, rfl, ?_⟩
  · simp [dumps, dump, e1, methodname_in_StringTypes, jsonclass_dump,
      payload_request, JValue.isStr, hid, hp, e2, e3, e4, Except.map]
  · refine check_invalid_envelope_aux _ (by rfl) ?_ ?_ ?_
    · simp [jsonrpcOk, jlookupKV,
        show pyFloat (.str "2.0") = .ok 2 from rfl]
    · simp [jlookupKV]
    · simp [jlookupKV]

/-- C1 (witness): a concrete instantiation of the amended round trip. -/
theorem request_roundtrip_decode_example :
    dumps (.value (.arr [.num 7])) (.str "mul") (.str "9") (some 2) false
        false "w"
      = .ok (.ofValue (.obj [("id", .str "9"), ("method", .str "mul"),
          ("params", .arr [.num 7]), ("jsonrpc", .str "2.0")]))
  ∧ loads (.ofValue (.obj [("id", .str "9"), ("method", .str "mul"),
          ("params", .arr [.num 7]), ("jsonrpc", .str "2.0")]))
      = .obj [("id", .str "9"), ("method", .str "mul"),
          ("params", .arr [.num 7]), ("jsonrpc", .str "2.0")]
  ∧ check_for_errors (.obj [("id", .str "9"), ("method", .str "mul"),
          ("params", .arr [.num 7]), ("jsonrpc", .str "2.0")])
      = .error (.valueError "Response does not have a result or error key.") :=
  request_roundtrip_decode "mul" (.arr [.num 7]) (.str "9") "w"
    (by rfl) (by rfl) (by rfl)

/-- C1 (counterexample): at `m = "add"`, `p = [5, 6]`, `id = "42"`, the
built request envelope encodes and decodes back exactly, but running it
through the error classifier raises the invalid-envelope `ValueError`
rather than succeeding, refuting the claimed
`classify(decode(encode(build_request(m, p, id))))` round trip. -/
theorem request_roundtrip_classify_fails :
    dumps (.value (.arr [.num 5, .num 6])) (.str "add") (.str "42") (some 2)
        false false "u"
      = .ok (.ofValue (.obj [("id", .str "42"), ("method", .str "add"),
          ("params", .arr [.num 5, .num 6]), ("jsonrpc", .str "2.0")]))
  ∧ check_for_errors (loads (.ofValue (.obj [("id", .str "42"),
        ("method", .str "add"), ("params", .arr [.num 5, .num 6]),
        ("jsonrpc", .str "2.0")])))
      = .error (.valueError "Response does not have a result or error key.") :=
  ⟨rfl, rfl⟩
